import Mathlib

/-!
Shallow embedding of the ESP32/STM32 packet framing codec and protocol
dispatcher from `src/Middleware/Features/esp32_packet_framing.c`,
`src/Middleware/Features/esp32_packet_framing.h` (which also carries
`protocol_handler.c`) and `src/Middleware/Features/protocol_common.h`.

Machine integers are modelled as `Nat` with explicit `% 2^w` at the points
where the C code truncates (uint8 parameters, uint16 fields, uint32 time
arithmetic).  Byte buffers are `List Nat`; the 512-byte receive and
transmit arrays are lists of length 512 written through `List.set`.
OS primitives (mutex take, semaphore take, task creation, HAL writes) are
modelled as boolean oracle parameters giving the outcome the C code
branches on.
-/

-- ============================================================================
-- Configuration constants (esp32_packet_framing.h / .c / protocol_common.h)
-- ============================================================================

/-- STM32_UART_MAX_PACKET_SIZE from esp32_packet_framing.h (512). -/
def STM32_UART_MAX_PACKET_SIZE : Nat := 512

/-- PACKET_OVERHEAD from esp32_packet_framing.c: START(1)+LENGTH(2)+CRC(2)+END(1). -/
def PACKET_OVERHEAD : Nat := 6

/-- STM32_PACKET_START_MARKER (0xAA). -/
def STM32_PACKET_START_MARKER : Nat := 0xAA

/-- STM32_PACKET_END_MARKER (0x55). -/
def STM32_PACKET_END_MARKER : Nat := 0x55

/-- PROTOCOL_HEADER_SIZE from protocol_common.h (6 bytes). -/
def PROTOCOL_HEADER_SIZE : Nat := 6

/-- PROTOCOL_MAX_PAYLOAD_SIZE from protocol_common.h (256 bytes). -/
def PROTOCOL_MAX_PAYLOAD_SIZE : Nat := 256

/-- packet_type_t values from protocol_common.h. -/
def PACKET_TYPE_CMD : Nat := 0x01
def PACKET_TYPE_RESP : Nat := 0x02
def PACKET_TYPE_NOTIFY : Nat := 0x03

/-- command_id_t values from protocol_common.h. -/
def CMD_GET_BUFFER_DATA : Nat := 0x01
def CMD_START_MEASUREMENT : Nat := 0x02
def CMD_STOP_MEASUREMENT : Nat := 0x03
def CMD_SET_RTC : Nat := 0x04
def CMD_GET_STATUS : Nat := 0x05
def CMD_CLEAR_BUFFER : Nat := 0x06
def CMD_GET_CONFIG : Nat := 0x07
def CMD_SET_CONFIG : Nat := 0x08
def NOTIFY_SENSOR_DATA : Nat := 0x80

/-- response_status_t values from protocol_common.h. -/
def RESP_OK : Nat := 0x00
def RESP_ERROR : Nat := 0x01
def RESP_INVALID_CMD : Nat := 0x02
def RESP_INVALID_PARAM : Nat := 0x03
def RESP_BUSY : Nat := 0x04
def RESP_TIMEOUT : Nat := 0x05
def RESP_NO_DATA : Nat := 0x06

-- ============================================================================
-- CRC16-CCITT (esp32_packet_framing.c lines 84-129)
-- ============================================================================

/-- The 256-entry CRC16-CCITT lookup table `crc16_table` from
esp32_packet_framing.c, transcribed verbatim. -/
def crc16_table : List Nat := [
  0x0000, 0x1021, 0x2042, 0x3063, 0x4084, 0x50A5, 0x60C6, 0x70E7,
  0x8108, 0x9129, 0xA14A, 0xB16B, 0xC18C, 0xD1AD, 0xE1CE, 0xF1EF,
  0x1231, 0x0210, 0x3273, 0x2252, 0x52B5, 0x4294, 0x72F7, 0x62D6,
  0x9339, 0x8318, 0xB37B, 0xA35A, 0xD3BD, 0xC39C, 0xF3FF, 0xE3DE,
  0x2462, 0x3443, 0x0420, 0x1401, 0x64E6, 0x74C7, 0x44A4, 0x5485,
  0xA56A, 0xB54B, 0x8528, 0x9509, 0xE5EE, 0xF5CF, 0xC5AC, 0xD58D,
  0x3653, 0x2672, 0x1611, 0x0630, 0x76D7, 0x66F6, 0x5695, 0x46B4,
  0xB75B, 0xA77A, 0x9719, 0x8738, 0xF7DF, 0xE7FE, 0xD79D, 0xC7BC,
  0x48C4, 0x58E5, 0x6886, 0x78A7, 0x0840, 0x1861, 0x2802, 0x3823,
  0xC9CC, 0xD9ED, 0xE98E, 0xF9AF, 0x8948, 0x9969, 0xA90A, 0xB92B,
  0x5AF5, 0x4AD4, 0x7AB7, 0x6A96, 0x1A71, 0x0A50, 0x3A33, 0x2A12,
  0xDBFD, 0xCBDC, 0xFBBF, 0xEB9E, 0x9B79, 0x8B58, 0xBB3B, 0xAB1A,
  0x6CA6, 0x7C87, 0x4CE4, 0x5CC5, 0x2C22, 0x3C03, 0x0C60, 0x1C41,
  0xEDAE, 0xFD8F, 0xCDEC, 0xDDCD, 0xAD2A, 0xBD0B, 0x8D68, 0x9D49,
  0x7E97, 0x6EB6, 0x5ED5, 0x4EF4, 0x3E13, 0x2E32, 0x1E51, 0x0E70,
  0xFF9F, 0xEFBE, 0xDFDD, 0xCFFC, 0xBF1B, 0xAF3A, 0x9F59, 0x8F78,
  0x9188, 0x81A9, 0xB1CA, 0xA1EB, 0xD10C, 0xC12D, 0xF14E, 0xE16F,
  0x1080, 0x00A1, 0x30C2, 0x20E3, 0x5004, 0x4025, 0x7046, 0x6067,
  0x83B9, 0x9398, 0xA3FB, 0xB3DA, 0xC33D, 0xD31C, 0xE37F, 0xF35E,
  0x02B1, 0x1290, 0x22F3, 0x32D2, 0x4235, 0x5214, 0x6277, 0x7256,
  0xB5EA, 0xA5CB, 0x95A8, 0x8589, 0xF56E, 0xE54F, 0xD52C, 0xC50D,
  0x34E2, 0x24C3, 0x14A0, 0x0481, 0x7466, 0x6447, 0x5424, 0x4405,
  0xA7DB, 0xB7FA, 0x8799, 0x97B8, 0xE75F, 0xF77E, 0xC71D, 0xD73C,
  0x26D3, 0x36F2, 0x0691, 0x16B0, 0x6657, 0x7676, 0x4615, 0x5634,
  0xD94C, 0xC96D, 0xF90E, 0xE92F, 0x99C8, 0x89E9, 0xB98A, 0xA9AB,
  0x5844, 0x4865, 0x7806, 0x6827, 0x18C0, 0x08E1, 0x3882, 0x28A3,
  0xCB7D, 0xDB5C, 0xEB3F, 0xFB1E, 0x8BF9, 0x9BD8, 0xABBB, 0xBB9A,
  0x4A75, 0x5A54, 0x6A37, 0x7A16, 0x0AF1, 0x1AD0, 0x2AB3, 0x3A92,
  0xFD2E, 0xED0F, 0xDD6C, 0xCD4D, 0xBDAA, 0xAD8B, 0x9DE8, 0x8DC9,
  0x7C26, 0x6C07, 0x5C64, 0x4C45, 0x3CA2, 0x2C83, 0x1CE0, 0x0CC1,
  0xEF1F, 0xFF3E, 0xCF5D, 0xDF7C, 0xAF9B, 0xBFBA, 0x8FD9, 0x9FF8,
  0x6E17, 0x7E36, 0x4E55, 0x5E74, 0x2E93, 0x3EB2, 0x0ED1, 0x1EF0]

/-- One loop iteration of `stm32_uart_crc16`: `index = (uint8_t)((crc >> 8) ^ b)`
then `crc = (crc << 8) ^ crc16_table[index]`, truncated to uint16. -/
def stm32_uart_crc16_step (crc b : Nat) : Nat :=
  let index := ((crc >>> 8) ^^^ b) % 256
  ((crc <<< 8) ^^^ crc16_table.getD index 0) % 65536

/-- `stm32_uart_crc16` from esp32_packet_framing.c lines 119-129:
table-driven CRC16-CCITT with initial value 0xFFFF. -/
def stm32_uart_crc16 (data : List Nat) : Nat :=
  data.foldl stm32_uart_crc16_step 0xFFFF

/-- Reference bit-level CRC16-CCITT shift step: shift left one bit and,
if bit 15 was set, fold in the polynomial 0x1021 (truncated to uint16).
This is the textbook MSB-first definition the spec cites; it is used only
to check `crc16_table` against the polynomial (claim C5). -/
def crc16_poly_step (v : Nat) : Nat :=
  if v &&& 0x8000 ≠ 0 then ((v <<< 1) ^^^ 0x1021) % 65536 else (v <<< 1) % 65536

/-- Reference table entry for byte `i`: eight polynomial shift steps applied
to `i <<< 8` (the standard generator of the CCITT table for poly 0x1021). -/
def crc16_table_ref (i : Nat) : Nat :=
  crc16_poly_step^[8] (i <<< 8)

-- ============================================================================
-- Receive state machine (esp32_packet_framing.c lines 39-75, 160-275)
-- ============================================================================

/-- `rx_state_t` from esp32_packet_framing.c. -/
inductive rx_state_t where
  | RX_STATE_IDLE
  | RX_STATE_LENGTH_LOW
  | RX_STATE_LENGTH_HIGH
  | RX_STATE_DATA
  | RX_STATE_CRC_LOW
  | RX_STATE_CRC_HIGH
  | RX_STATE_END
deriving DecidableEq

/-- `stm32_uart_stats_t` from esp32_packet_framing.h. -/
structure stm32_uart_stats_t where
  packets_sent : Nat
  packets_received : Nat
  crc_errors : Nat
  framing_errors : Nat
  overflow_errors : Nat
  timeout_errors : Nat
deriving DecidableEq

/-- Events delivered through `notify_event` (`stm32_uart_event_t`), one
constructor per `stm32_uart_event_type_t` value, carrying the data/length
the C code passes for that event. -/
inductive stm32_uart_event where
  | PACKET_RECEIVED (data : List Nat)
  | TX_COMPLETE (length : Nat)
  | RX_ERROR
  | CRC_ERROR
  | TIMEOUT
deriving DecidableEq

/-- Receive-side fields of `stm32_uart_state_t` (esp32_packet_framing.c
lines 49-73): state enum, the 512-byte accumulation array, write index,
expected payload length (uint16), received CRC (uint16), timestamp of the
last byte, and the statistics counters. -/
structure stm32_uart_rx_t where
  rx_state : rx_state_t
  rx_buffer : List Nat
  rx_index : Nat
  rx_expected_length : Nat
  rx_crc : Nat
  rx_last_byte_time : Nat
  stats : stm32_uart_stats_t
deriving DecidableEq

/-- `rx_reset_state` from esp32_packet_framing.c lines 163-169. -/
def rx_reset_state (s : stm32_uart_rx_t) : stm32_uart_rx_t :=
  { s with rx_state := .RX_STATE_IDLE, rx_index := 0, rx_expected_length := 0, rx_crc := 0 }

/-- The zero-initialised receive state (`static stm32_uart_state_t state = {0}`). -/
def stm32_uart_rx_initial : stm32_uart_rx_t :=
  { rx_state := .RX_STATE_IDLE
    rx_buffer := List.replicate STM32_UART_MAX_PACKET_SIZE 0
    rx_index := 0
    rx_expected_length := 0
    rx_crc := 0
    rx_last_byte_time := 0
    stats := ⟨0, 0, 0, 0, 0, 0⟩ }

/-- uint32 wrap-around difference `now - last` as computed in C. -/
def diff32 (now last : Nat) : Nat :=
  (now % 4294967296 + 4294967296 - last % 4294967296) % 4294967296

/-- The `switch (state.rx_state)` body of `rx_process_byte`
(esp32_packet_framing.c lines 205-274), acting on a byte already truncated
to uint8.  Returns the new state and the events emitted via `notify_event`. -/
def rx_step (s : stm32_uart_rx_t) (byte : Nat) : stm32_uart_rx_t × List stm32_uart_event :=
  match s.rx_state with
  | .RX_STATE_IDLE =>
      if byte = STM32_PACKET_START_MARKER then
        ({ s with rx_state := .RX_STATE_LENGTH_LOW, rx_index := 0 }, [])
      else (s, [])
  | .RX_STATE_LENGTH_LOW =>
      ({ s with rx_expected_length := byte, rx_state := .RX_STATE_LENGTH_HIGH }, [])
  | .RX_STATE_LENGTH_HIGH =>
      let len := s.rx_expected_length ||| (byte <<< 8)
      if STM32_UART_MAX_PACKET_SIZE - PACKET_OVERHEAD < len then
        let st := { s.stats with framing_errors := s.stats.framing_errors + 1 }
        (rx_reset_state { s with rx_expected_length := len, stats := st }, [])
      else if len = 0 then
        ({ s with rx_expected_length := len, rx_state := .RX_STATE_CRC_LOW }, [])
      else
        ({ s with rx_expected_length := len, rx_state := .RX_STATE_DATA }, [])
  | .RX_STATE_DATA =>
      let s' := { s with rx_buffer := s.rx_buffer.set s.rx_index byte, rx_index := s.rx_index + 1 }
      if s'.rx_expected_length ≤ s'.rx_index then
        ({ s' with rx_state := .RX_STATE_CRC_LOW }, [])
      else (s', [])
  | .RX_STATE_CRC_LOW =>
      ({ s with rx_crc := byte, rx_state := .RX_STATE_CRC_HIGH }, [])
  | .RX_STATE_CRC_HIGH =>
      ({ s with rx_crc := s.rx_crc ||| (byte <<< 8), rx_state := .RX_STATE_END }, [])
  | .RX_STATE_END =>
      if byte = STM32_PACKET_END_MARKER then
        let calculated_crc := stm32_uart_crc16 (s.rx_buffer.take s.rx_index)
        if calculated_crc = s.rx_crc then
          let st := { s.stats with packets_received := s.stats.packets_received + 1 }
          (rx_reset_state { s with stats := st },
           [.PACKET_RECEIVED (s.rx_buffer.take s.rx_index)])
        else
          let st := { s.stats with crc_errors := s.stats.crc_errors + 1 }
          (rx_reset_state { s with stats := st }, [.CRC_ERROR])
      else
        let st := { s.stats with framing_errors := s.stats.framing_errors + 1 }
        (rx_reset_state { s with stats := st }, [.RX_ERROR])

/-- `rx_process_byte` (esp32_packet_framing.c lines 189-275): the inter-byte
timeout check followed by the state-machine switch.  `tmo` is
`state.config.rx_timeout_ms`, `now` the value of `os_get_time_ms()`, and the
incoming `uint8_t byte` parameter is `b % 256`. -/
def rx_process_byte (tmo : Nat) (s : stm32_uart_rx_t) (b now : Nat) :
    stm32_uart_rx_t × List stm32_uart_event :=
  let byte := b % 256
  if 0 < tmo ∧ s.rx_state ≠ .RX_STATE_IDLE ∧ tmo < diff32 now s.rx_last_byte_time then
    let st := { s.stats with timeout_errors := s.stats.timeout_errors + 1 }
    let s1 := rx_reset_state { s with stats := st }
    let r := rx_step { s1 with rx_last_byte_time := now } byte
    (r.1, .TIMEOUT :: r.2)
  else
    rx_step { s with rx_last_byte_time := now } byte

/-- Feeding a sequence of (byte, arrival-time) pairs through
`rx_process_byte`, as the receive task does one byte at a time, collecting
all emitted events in order. -/
def rxRun (tmo : Nat) : stm32_uart_rx_t → List (Nat × Nat) →
    stm32_uart_rx_t × List stm32_uart_event
  | s, [] => (s, [])
  | s, (b, t) :: rest =>
      let r := rx_process_byte tmo s b t
      let r2 := rxRun tmo r.1 rest
      (r2.1, r.2 ++ r2.2)

-- ============================================================================
-- Transmit paths (esp32_packet_framing.c lines 433-561)
-- ============================================================================

/-- `uart_driver_status_t` from esp32_packet_framing.h. -/
inductive uart_driver_status_t where
  | UART_DRV_OK
  | UART_DRV_ERR_NOT_INITIALIZED
  | UART_DRV_ERR_ALREADY_INIT
  | UART_DRV_ERR_INVALID_PARAM
  | UART_DRV_ERR_TIMEOUT
  | UART_DRV_ERR_TX_FAILED
  | UART_DRV_ERR_PACKET_TOO_LARGE
  | UART_DRV_ERR_CRC_FAILED
  | UART_DRV_ERR_FRAMING
  | UART_DRV_ERR_BUFFER_OVERFLOW
  | UART_DRV_ERR_MEMORY
deriving DecidableEq

/-- The frame assembled into the local `tx_buffer` by `stm32_uart_send_packet`
(esp32_packet_framing.c lines 450-473): START, length little-endian, data,
CRC16 over data only little-endian, END. -/
def stm32_uart_send_packet_frame (data : List Nat) : List Nat :=
  let crc := stm32_uart_crc16 data
  [STM32_PACKET_START_MARKER,
   data.length &&& 0xFF, (data.length >>> 8) &&& 0xFF]
  ++ data
  ++ [crc &&& 0xFF, (crc >>> 8) &&& 0xFF, STM32_PACKET_END_MARKER]

/-- Transmit-side fields of `stm32_uart_state_t`: the initialized flag, the
single shared static 512-byte TX buffer, the pending length recorded for the
completion callback, and the `tx_in_progress` flag. -/
structure stm32_uart_tx_t where
  initialized : Bool
  tx_buffer : List Nat
  tx_pending_length : Nat
  tx_in_progress : Bool
deriving DecidableEq

/-- `stm32_uart_send_packet_async` (esp32_packet_framing.c lines 495-561).
`mutexOk` is the outcome of `os_mutex_take(state.tx_mutex, ...)`, `semOk` the
outcome of `os_semaphore_take(state.tx_complete_sem, ...)` performed only when
`tx_in_progress` is set, and `writeOk` the outcome of
`hal_uart_write_async`.  The frame is built byte-for-byte into the shared
static `tx_buffer` (overwriting its first `6 + length` cells). -/
def stm32_uart_send_packet_async (s : stm32_uart_tx_t) (data : List Nat)
    (mutexOk semOk writeOk : Bool) : uart_driver_status_t × stm32_uart_tx_t :=
  if s.initialized = false then (.UART_DRV_ERR_NOT_INITIALIZED, s)
  else if STM32_UART_MAX_PACKET_SIZE - PACKET_OVERHEAD < data.length then
    (.UART_DRV_ERR_PACKET_TOO_LARGE, s)
  else if mutexOk = false then (.UART_DRV_ERR_TIMEOUT, s)
  else if s.tx_in_progress = true ∧ semOk = false then
    -- previous TX did not complete in time: release mutex, fail
    (.UART_DRV_ERR_TIMEOUT, s)
  else
    let crc := stm32_uart_crc16 data
    let frame :=
      [STM32_PACKET_START_MARKER,
       data.length &&& 0xFF, (data.length >>> 8) &&& 0xFF]
      ++ data
      ++ [crc &&& 0xFF, (crc >>> 8) &&& 0xFF, STM32_PACKET_END_MARKER]
    let buf := frame ++ s.tx_buffer.drop frame.length
    let s' := { s with tx_buffer := buf, tx_pending_length := data.length, tx_in_progress := true }
    if writeOk = false then (.UART_DRV_ERR_TX_FAILED, { s' with tx_in_progress := false })
    else (.UART_DRV_OK, s')

-- ============================================================================
-- Protocol dispatcher (protocol_handler.c, carried in esp32_packet_framing.h)
-- ============================================================================

/-- `proto_handler_status_t` from protocol_handler.h. -/
inductive proto_handler_status_t where
  | PROTO_HANDLER_OK
  | PROTO_HANDLER_ERR_NOT_INIT
  | PROTO_HANDLER_ERR_ALREADY_INIT
  | PROTO_HANDLER_ERR_TX_FAILED
  | PROTO_HANDLER_ERR_INVALID_PARAM
deriving DecidableEq

/-- `protocol_packet_t` from protocol_common.h: TYPE(1) CMD_ID(1) SEQ(1)
STATUS(1) LENGTH_LE(2) PAYLOAD.  `payload` holds the bytes actually copied
into (or available in) the payload array. -/
structure protocol_packet_t where
  type : Nat
  cmd_id : Nat
  seq : Nat
  status : Nat
  length : Nat
  payload : List Nat
deriving DecidableEq

/-- A packet handed to `stm32_uart_send_packet_async` together with the
`total_len = PROTOCOL_HEADER_SIZE + payload_len` argument. -/
structure sent_frame_t where
  packet : protocol_packet_t
  total_len : Nat
deriving DecidableEq

/-- External side effects a command handler performs on collaborators. -/
inductive proto_action_t where
  | clearBuffer
  | taskCreate
  | taskDelete
deriving DecidableEq

/-- The fields of `protocol_state_t` (protocol_handler.c) used by the
dispatch, response and streaming-control paths.  The latest-temperature
cache (`last_temperature`, `last_humidity`: C floats) is omitted: it is read
only by the stream task's sample construction, which involves
floating-point scaling and is not modelled. -/
structure protocol_state_t where
  initialized : Bool
  seq_counter : Nat
  streaming_active : Bool
  stream_sensor : Nat
  stream_interval_ms : Nat
  stream_task_handle : Bool
  stream_stop_requested : Bool
deriving DecidableEq

/-- Collaborator readings and OS outcomes consumed by the handlers:
`current_monitor_get_status()`, `stats.samples_captured` from
`current_monitor_get_stats`, `os_get_tick_count()`, the result of
`os_task_create` and the result of `stm32_uart_send_packet_async`. -/
structure collab_t where
  measStatus : Nat
  samplesCaptured : Nat
  tick : Nat
  taskOk : Bool
  txOk : Bool
deriving DecidableEq

/-- Little-endian byte serialization of a uint16 field of a packed struct. -/
def le16 (n : Nat) : List Nat := [n &&& 0xFF, (n >>> 8) &&& 0xFF]

/-- Little-endian byte serialization of a uint32 field of a packed struct. -/
def le32 (n : Nat) : List Nat :=
  [n &&& 0xFF, (n >>> 8) &&& 0xFF, (n >>> 16) &&& 0xFF, (n >>> 24) &&& 0xFF]

/-- `protocol_handler_send_response`: builds a RESP packet echoing `cmd_id`
and `seq`, copies the payload if non-null, and hands it to
`stm32_uart_send_packet_async` with `PROTOCOL_HEADER_SIZE + payload_len`
bytes.  `cmd_id` and `seq` are uint8 parameters; `txOk` is the outcome of
the async send.  Returns the status, the (unchanged) dispatcher state, and
the frames handed to the transmit path. -/
def protocol_handler_send_response (s : protocol_state_t) (cmd_id seq status : Nat)
    (payload : List Nat) (txOk : Bool) :
    proto_handler_status_t × protocol_state_t × List sent_frame_t :=
  if s.initialized = false then (.PROTO_HANDLER_ERR_NOT_INIT, s, [])
  else
    let resp : protocol_packet_t :=
      { type := PACKET_TYPE_RESP, cmd_id := cmd_id % 256, seq := seq % 256,
        status := status % 256, length := payload.length % 65536, payload := [] }
    if payload ≠ [] ∧ PROTOCOL_MAX_PAYLOAD_SIZE < payload.length then
      (.PROTO_HANDLER_ERR_INVALID_PARAM, s, [])
    else
      let resp := { resp with payload := payload }
      let total_len := PROTOCOL_HEADER_SIZE + payload.length
      if txOk then (.PROTO_HANDLER_OK, s, [⟨resp, total_len⟩])
      else (.PROTO_HANDLER_ERR_TX_FAILED, s, [⟨resp, total_len⟩])

/-- `protocol_handler_send_notification`: builds a NOTIFY packet whose `seq`
is drawn from `state.seq_counter++` (uint8, so the stored counter wraps
mod 256), status `RESP_OK`, and hands it to the async transmit path.  The
counter is incremented when the packet is built, before the payload-size
check. -/
def protocol_handler_send_notification (s : protocol_state_t) (cmd_id : Nat)
    (payload : List Nat) (txOk : Bool) :
    proto_handler_status_t × protocol_state_t × List sent_frame_t :=
  if s.initialized = false then (.PROTO_HANDLER_ERR_NOT_INIT, s, [])
  else
    let notify : protocol_packet_t :=
      { type := PACKET_TYPE_NOTIFY, cmd_id := cmd_id % 256, seq := s.seq_counter,
        status := RESP_OK, length := payload.length % 65536, payload := [] }
    let s := { s with seq_counter := (s.seq_counter + 1) % 256 }
    if payload ≠ [] ∧ PROTOCOL_MAX_PAYLOAD_SIZE < payload.length then
      (.PROTO_HANDLER_ERR_INVALID_PARAM, s, [])
    else
      let notify := { notify with payload := payload }
      let total_len := PROTOCOL_HEADER_SIZE + payload.length
      if txOk then (.PROTO_HANDLER_OK, s, [⟨notify, total_len⟩])
      else (.PROTO_HANDLER_ERR_TX_FAILED, s, [⟨notify, total_len⟩])

/-- `sensor_sample_t` from protocol_common.h (packed, 9 bytes).  `value` is
the uint32 bit pattern of the int32 field. -/
structure sensor_sample_t where
  sensor_type : Nat
  timestamp : Nat
  value : Nat
deriving DecidableEq

/-- Packed little-endian byte image of a `sensor_sample_t`
(`sizeof(sensor_sample_t) = 9`). -/
def serialize_sensor_sample (sm : sensor_sample_t) : List Nat :=
  [sm.sensor_type % 256] ++ le32 sm.timestamp ++ le32 sm.value

/-- `protocol_handler_send_sensor_sample`: forwards the sample to
`protocol_handler_send_notification` with `CMD_START_MEASUREMENT` as the
`cmd_id` and `sizeof(sensor_sample_t)` bytes of payload. -/
def protocol_handler_send_sensor_sample (s : protocol_state_t)
    (sample : sensor_sample_t) (txOk : Bool) :
    proto_handler_status_t × protocol_state_t × List sent_frame_t :=
  protocol_handler_send_notification s CMD_START_MEASUREMENT
    (serialize_sensor_sample sample) txOk

/-- `protocol_handler_stop_stream`: no-op when idle; otherwise sets the
stop-request flag, waits (bounded) for the loop to clear
`streaming_active`, deletes the task handle and clears the active flag. -/
def protocol_handler_stop_stream (s : protocol_state_t) :
    proto_handler_status_t × protocol_state_t × List proto_action_t :=
  if s.streaming_active = false then (.PROTO_HANDLER_OK, s, [])
  else
    let s := { s with stream_stop_requested := true }
    let acts := if s.stream_task_handle then [proto_action_t.taskDelete] else []
    (.PROTO_HANDLER_OK,
     { s with stream_task_handle := false, streaming_active := false }, acts)

/-- `protocol_handler_start_stream`: stops any active session, stores the
session parameters, clears the stop flag, spawns the stream task (`taskOk`
is the `os_task_create` outcome) and marks the session running. -/
def protocol_handler_start_stream (s : protocol_state_t)
    (sensor_type interval_ms : Nat) (taskOk : Bool) :
    proto_handler_status_t × protocol_state_t × List proto_action_t :=
  if s.initialized = false then (.PROTO_HANDLER_ERR_NOT_INIT, s, [])
  else
    let r0 := if s.streaming_active then protocol_handler_stop_stream s
              else (.PROTO_HANDLER_OK, s, [])
    let s := r0.2.1
    let s := { s with stream_sensor := sensor_type, stream_interval_ms := interval_ms,
                      stream_stop_requested := false }
    if taskOk = false then (.PROTO_HANDLER_ERR_NOT_INIT, s, r0.2.2)
    else
      (.PROTO_HANDLER_OK,
       { s with streaming_active := true, stream_task_handle := true },
       r0.2.2 ++ [proto_action_t.taskCreate])

/-- sizeof(cmd_set_rtc_t) = 4 (one packed uint32). -/
def sizeof_cmd_set_rtc_t : Nat := 4

/-- sizeof(cmd_start_stream_t) = 5 (packed uint8 + uint32). -/
def sizeof_cmd_start_stream_t : Nat := 5

/-- `handle_cmd_get_status`: builds a `resp_get_status_t` payload from the
current-monitor status, sample count (uint16) and uptime (uint32,
`os_get_tick_count()/1000`), and responds `RESP_OK`. -/
def handle_cmd_get_status (co : collab_t) (s : protocol_state_t)
    (cmd : protocol_packet_t) :
    protocol_state_t × List sent_frame_t × List proto_action_t :=
  let status_resp :=
    [co.measStatus % 256, 0] ++ le16 (co.samplesCaptured % 65536)
      ++ le32 ((co.tick % 4294967296) / 1000)
  let r := protocol_handler_send_response s cmd.cmd_id cmd.seq RESP_OK status_resp co.txOk
  (r.2.1, r.2.2, [])

/-- `handle_cmd_set_rtc`: payload too short yields `RESP_INVALID_PARAM`;
otherwise the RTC update is a TODO in the source (log only) and the reply
is `RESP_OK`. -/
def handle_cmd_set_rtc (co : collab_t) (s : protocol_state_t)
    (cmd : protocol_packet_t) :
    protocol_state_t × List sent_frame_t × List proto_action_t :=
  if cmd.length < sizeof_cmd_set_rtc_t then
    let r := protocol_handler_send_response s cmd.cmd_id cmd.seq RESP_INVALID_PARAM [] co.txOk
    (r.2.1, r.2.2, [])
  else
    let r := protocol_handler_send_response s cmd.cmd_id cmd.seq RESP_OK [] co.txOk
    (r.2.1, r.2.2, [])

/-- `handle_cmd_start_measurement`: validates the payload size, starts the
streaming session with the requested sensor type and little-endian
interval, and responds `RESP_OK` or `RESP_ERROR`. -/
def handle_cmd_start_measurement (co : collab_t) (s : protocol_state_t)
    (cmd : protocol_packet_t) :
    protocol_state_t × List sent_frame_t × List proto_action_t :=
  if cmd.length < sizeof_cmd_start_stream_t then
    let r := protocol_handler_send_response s cmd.cmd_id cmd.seq RESP_INVALID_PARAM [] co.txOk
    (r.2.1, r.2.2, [])
  else
    let sensor := cmd.payload.getD 0 0
    let interval := cmd.payload.getD 1 0 ||| (cmd.payload.getD 2 0 <<< 8)
      ||| (cmd.payload.getD 3 0 <<< 16) ||| (cmd.payload.getD 4 0 <<< 24)
    let r0 := protocol_handler_start_stream s sensor interval co.taskOk
    let status := if r0.1 = .PROTO_HANDLER_OK then RESP_OK else RESP_ERROR
    let r := protocol_handler_send_response r0.2.1 cmd.cmd_id cmd.seq status [] co.txOk
    (r.2.1, r.2.2, r0.2.2)

/-- `handle_cmd_stop_measurement`: stops the stream and always replies
`RESP_OK`. -/
def handle_cmd_stop_measurement (co : collab_t) (s : protocol_state_t)
    (cmd : protocol_packet_t) :
    protocol_state_t × List sent_frame_t × List proto_action_t :=
  let r0 := protocol_handler_stop_stream s
  let r := protocol_handler_send_response r0.2.1 cmd.cmd_id cmd.seq RESP_OK [] co.txOk
  (r.2.1, r.2.2, r0.2.2)

/-- `handle_cmd_get_buffer_data`: buffer retrieval is unimplemented; replies
`RESP_NO_DATA`. -/
def handle_cmd_get_buffer_data (co : collab_t) (s : protocol_state_t)
    (cmd : protocol_packet_t) :
    protocol_state_t × List sent_frame_t × List proto_action_t :=
  let r := protocol_handler_send_response s cmd.cmd_id cmd.seq RESP_NO_DATA [] co.txOk
  (r.2.1, r.2.2, [])

/-- `handle_cmd_clear_buffer`: clears the current-monitor store and replies
`RESP_OK`. -/
def handle_cmd_clear_buffer (co : collab_t) (s : protocol_state_t)
    (cmd : protocol_packet_t) :
    protocol_state_t × List sent_frame_t × List proto_action_t :=
  let r := protocol_handler_send_response s cmd.cmd_id cmd.seq RESP_OK [] co.txOk
  (r.2.1, r.2.2, [proto_action_t.clearBuffer])

/-- `handle_command`: the `switch (packet->cmd_id)` dispatch.  Unknown
command identifiers fall to the default branch, which replies
`RESP_INVALID_CMD` with an empty payload. -/
def handle_command (co : collab_t) (s : protocol_state_t) (packet : protocol_packet_t) :
    protocol_state_t × List sent_frame_t × List proto_action_t :=
  if packet.cmd_id = CMD_GET_STATUS then handle_cmd_get_status co s packet
  else if packet.cmd_id = CMD_SET_RTC then handle_cmd_set_rtc co s packet
  else if packet.cmd_id = CMD_START_MEASUREMENT then handle_cmd_start_measurement co s packet
  else if packet.cmd_id = CMD_STOP_MEASUREMENT then handle_cmd_stop_measurement co s packet
  else if packet.cmd_id = CMD_GET_BUFFER_DATA then handle_cmd_get_buffer_data co s packet
  else if packet.cmd_id = CMD_CLEAR_BUFFER then handle_cmd_clear_buffer co s packet
  else
    let r := protocol_handler_send_response s packet.cmd_id packet.seq RESP_INVALID_CMD [] co.txOk
    (r.2.1, r.2.2, [])

/-- Reading an incoming byte buffer as a `protocol_packet_t` (the C cast of
`event->data` to `const protocol_packet_t *`): the four header bytes, the
little-endian uint16 length, and the remaining bytes as the visible payload
region. -/
def parse_packet (data : List Nat) : protocol_packet_t :=
  { type := data.getD 0 0, cmd_id := data.getD 1 0, seq := data.getD 2 0,
    status := data.getD 3 0,
    length := data.getD 4 0 ||| (data.getD 5 0 <<< 8),
    payload := data.drop PROTOCOL_HEADER_SIZE }

/-- `packet_rx_callback`: ignores non-PACKET_RECEIVED events, rejects short
buffers, non-command packet types, and packets whose declared length
exceeds the bytes actually present; otherwise dispatches the command. -/
def packet_rx_callback (co : collab_t) (s : protocol_state_t) (event : stm32_uart_event) :
    protocol_state_t × List sent_frame_t × List proto_action_t :=
  match event with
  | .PACKET_RECEIVED data =>
      if data.length < PROTOCOL_HEADER_SIZE then (s, [], [])
      else
        let packet := parse_packet data
        if packet.type ≠ PACKET_TYPE_CMD then (s, [], [])
        else if data.length - PROTOCOL_HEADER_SIZE < packet.length then (s, [], [])
        else handle_command co s packet
  | _ => (s, [], [])

-- ============================================================================
-- Helper lemmas
-- ============================================================================

theorem and_255_eq_mod (n : Nat) : n &&& 255 = n % 256 := by
  simpa using Nat.and_pow_two_sub_one_eq_mod n 8

theorem shiftRight_8_eq_div (n : Nat) : n >>> 8 = n / 256 := by
  rw [Nat.shiftRight_eq_div_pow]

theorem lor_shiftLeft8_eq_add (a b : Nat) (h : a < 256) : a ||| (b <<< 8) = 256 * b + a := by
  have h2 : b <<< 8 = 2 ^ 8 * b := by
    rw [Nat.shiftLeft_eq, Nat.mul_comm]
  rw [h2, Nat.lor_comm, ← Nat.mul_add_lt_is_or (by omega : a < 2 ^ 8) b]

/-- Reassembling the two little-endian bytes of a uint16 recovers it. -/
theorem le16_reassemble (n : Nat) (h : n < 65536) :
    (n &&& 255) ||| (((n >>> 8) &&& 255) <<< 8) = n := by
  rw [and_255_eq_mod, shiftRight_8_eq_div, and_255_eq_mod,
    lor_shiftLeft8_eq_add _ _ (Nat.mod_lt _ (by norm_num))]
  omega

theorem and_255_lt (n : Nat) : n &&& 255 < 256 := by
  rw [and_255_eq_mod]; exact Nat.mod_lt _ (by norm_num)

theorem crc16_foldl_lt (l : List Nat) : ∀ a, a < 65536 →
    l.foldl stm32_uart_crc16_step a < 65536 := by
  induction l with
  | nil => intro a ha; simpa using ha
  | cons b t ih =>
      intro a _
      simp only [List.foldl_cons]
      exact ih _ (Nat.mod_lt _ (by norm_num))

theorem stm32_uart_crc16_lt (data : List Nat) : stm32_uart_crc16 data < 65536 :=
  crc16_foldl_lt data 0xFFFF (by norm_num)

theorem diff32_self (now : Nat) : diff32 now now = 0 := by
  unfold diff32
  omega

theorem rxRun_nil (tmo : Nat) (s : stm32_uart_rx_t) : rxRun tmo s [] = (s, []) := rfl

theorem rxRun_cons (tmo : Nat) (s : stm32_uart_rx_t) (b t : Nat) (rest : List (Nat × Nat)) :
    rxRun tmo s ((b, t) :: rest) =
      ((rxRun tmo (rx_process_byte tmo s b t).1 rest).1,
       (rx_process_byte tmo s b t).2 ++ (rxRun tmo (rx_process_byte tmo s b t).1 rest).2) := rfl

theorem rxRun_append (tmo : Nat) (s : stm32_uart_rx_t) (l1 l2 : List (Nat × Nat)) :
    rxRun tmo s (l1 ++ l2) =
      ((rxRun tmo (rxRun tmo s l1).1 l2).1,
       (rxRun tmo s l1).2 ++ (rxRun tmo (rxRun tmo s l1).1 l2).2) := by
  induction l1 generalizing s with
  | nil => simp [rxRun_nil]
  | cons p t ih =>
      obtain ⟨b, tm⟩ := p
      simp only [List.cons_append, rxRun_cons, ih, List.append_assoc]

/-- When the guard of the inter-byte timeout is false the call reduces to
the switch on the state, with the timestamp updated. -/
theorem rx_process_byte_no_timeout (tmo : Nat) (s : stm32_uart_rx_t) (b now : Nat)
    (h : ¬ (0 < tmo ∧ s.rx_state ≠ .RX_STATE_IDLE ∧ tmo < diff32 now s.rx_last_byte_time)) :
    rx_process_byte tmo s b now = rx_step { s with rx_last_byte_time := now } (b % 256) := by
  unfold rx_process_byte
  simp [h]

/-- Bytes arriving with no time gap never trip the timeout. -/
theorem rx_process_byte_same_time (tmo : Nat) (s : stm32_uart_rx_t) (b now : Nat)
    (h : s.rx_last_byte_time = now) :
    rx_process_byte tmo s b now = rx_step { s with rx_last_byte_time := now } (b % 256) := by
  apply rx_process_byte_no_timeout
  rw [h, diff32_self]
  rintro ⟨-, -, h3⟩
  exact absurd h3 (by omega)

/-- In the idle state the timeout check is skipped. -/
theorem rx_process_byte_idle (tmo : Nat) (s : stm32_uart_rx_t) (b now : Nat)
    (h : s.rx_state = .RX_STATE_IDLE) :
    rx_process_byte tmo s b now = rx_step { s with rx_last_byte_time := now } (b % 256) := by
  apply rx_process_byte_no_timeout
  rintro ⟨-, h2, -⟩
  exact h2 h

theorem take_succ_set {α : Type} (l : List α) (i : Nat) (a : α) (h : i < l.length) :
    (l.set i a).take (i + 1) = l.take i ++ [a] := by
  induction l generalizing i with
  | nil => simp at h
  | cons x xs ih =>
      cases i with
      | zero => simp
      | succ j =>
          simp only [List.set_cons_succ, List.take_succ_cons, List.cons_append]
          rw [ih j (by simpa using h)]


-- ============================================================================
-- Dispatcher helper lemma
-- ============================================================================

theorem packet_rx_callback_dispatch (co : collab_t) (s : protocol_state_t) (data : List Nat)
    (hlen : PROTOCOL_HEADER_SIZE ≤ data.length)
    (htype : data.getD 0 0 = PACKET_TYPE_CMD)
    (hok : data.getD 4 0 ||| (data.getD 5 0 <<< 8) ≤ data.length - PROTOCOL_HEADER_SIZE) :
    packet_rx_callback co s (.PACKET_RECEIVED data) = handle_command co s (parse_packet data) := by
  have htype2 : data[0]?.getD 0 = PACKET_TYPE_CMD := by simpa [List.getD] using htype
  have hok2 : data[4]?.getD 0 ||| (data[5]?.getD 0 <<< 8) ≤ data.length - PROTOCOL_HEADER_SIZE := by
    simpa [List.getD] using hok
  simp [packet_rx_callback, parse_packet, Nat.not_lt.mpr hlen, htype2, Nat.not_lt.mpr hok2]

-- ============================================================================
-- Claim C6
-- ============================================================================

/-- C6: if `stm32_uart_send_packet_async` is called while a previous
asynchronous transmission is still in progress (`tx_in_progress = true`) and
the bounded wait on the completion semaphore times out (`semOk = false`),
the call returns `UART_DRV_ERR_TIMEOUT` with the driver state — in
particular the shared transmit buffer, the pending length and the
in-progress flag — completely unchanged; the wait happens before anything
is written into the shared transmit buffer, so a failed call never corrupts
the outstanding frame and at most one transmission is started. -/
theorem c6_async_timeout_leaves_state_unchanged (s : stm32_uart_tx_t)
    (data : List Nat) (writeOk : Bool)
    (hinit : s.initialized = true)
    (hlen : data.length ≤ STM32_UART_MAX_PACKET_SIZE - PACKET_OVERHEAD)
    (hbusy : s.tx_in_progress = true) :
    stm32_uart_send_packet_async s data true false writeOk
      = (.UART_DRV_ERR_TIMEOUT, s) := by
  unfold stm32_uart_send_packet_async
  rw [if_neg (by simp [hinit]),
      if_neg (by revert hlen; unfold STM32_UART_MAX_PACKET_SIZE PACKET_OVERHEAD; omega),
      if_neg (by simp), if_pos (by simp [hbusy])]

/-- Witness for C6 at a concrete busy driver state. -/
theorem c6_witness :
    stm32_uart_send_packet_async ⟨true, List.replicate 512 0, 7, true⟩ [1, 2] true false true
      = (.UART_DRV_ERR_TIMEOUT, ⟨true, List.replicate 512 0, 7, true⟩) :=
  c6_async_timeout_leaves_state_unchanged ⟨true, List.replicate 512 0, 7, true⟩ [1, 2] true
    rfl (by decide) rfl

-- ============================================================================
-- Claim C7
-- ============================================================================

/-- C7: a received Command packet whose declared payload length exceeds the
bytes actually present after the 6-byte header is dropped by
`packet_rx_callback` without sending any response, without performing any
command action, and without changing the dispatcher state. -/
theorem c7_oversized_length_silently_dropped (co : collab_t) (s : protocol_state_t)
    (data : List Nat)
    (hlen : PROTOCOL_HEADER_SIZE ≤ data.length)
    (htype : data.getD 0 0 = PACKET_TYPE_CMD)
    (hbad : data.length - PROTOCOL_HEADER_SIZE < data.getD 4 0 ||| (data.getD 5 0 <<< 8)) :
    packet_rx_callback co s (.PACKET_RECEIVED data) = (s, [], []) := by
  have htype2 : data[0]?.getD 0 = PACKET_TYPE_CMD := by simpa [List.getD] using htype
  have hbad2 : data.length - PROTOCOL_HEADER_SIZE < data[4]?.getD 0 ||| (data[5]?.getD 0 <<< 8) := by
    simpa [List.getD] using hbad
  simp [packet_rx_callback, parse_packet, Nat.not_lt.mpr hlen, htype2, hbad2]

/-- Witness for C7: a Command header declaring 10 payload bytes while none
are present after the header. -/
theorem c7_witness :
    packet_rx_callback ⟨0, 0, 0, true, true⟩ ⟨true, 0, false, 0, 0, false, false⟩
        (.PACKET_RECEIVED [1, 5, 7, 0, 10, 0])
      = (⟨true, 0, false, 0, 0, false, false⟩, [], []) :=
  c7_oversized_length_silently_dropped ⟨0, 0, 0, true, true⟩
    ⟨true, 0, false, 0, 0, false, false⟩ [1, 5, 7, 0, 10, 0]
    (by decide) (by decide) (by decide)

-- ============================================================================
-- Claim C8
-- ============================================================================

/-- C8: a Command packet whose `cmd_id` is none of the six dispatched
commands produces exactly one Response frame with status
`RESP_INVALID_CMD` (0x02), a zero-length payload, and the `cmd_id` and
`seq` of the received command echoed back, while the dispatcher state is
unchanged and no command action is performed. -/
theorem c8_unknown_command_invalid_cmd_response (co : collab_t) (s : protocol_state_t)
    (cmd seq st l0 l1 : Nat) (rest : List Nat)
    (hinit : s.initialized = true)
    (hcmd : cmd < 256) (hseq : seq < 256)
    (h1 : cmd ≠ CMD_GET_BUFFER_DATA) (h2 : cmd ≠ CMD_START_MEASUREMENT)
    (h3 : cmd ≠ CMD_STOP_MEASUREMENT) (h4 : cmd ≠ CMD_SET_RTC)
    (h5 : cmd ≠ CMD_GET_STATUS) (h6 : cmd ≠ CMD_CLEAR_BUFFER)
    (hlen : l0 ||| (l1 <<< 8) ≤ rest.length) :
    packet_rx_callback co s
        (.PACKET_RECEIVED (PACKET_TYPE_CMD :: cmd :: seq :: st :: l0 :: l1 :: rest))
      = (s, [⟨{ type := PACKET_TYPE_RESP, cmd_id := cmd, seq := seq,
                status := RESP_INVALID_CMD, length := 0, payload := [] },
              PROTOCOL_HEADER_SIZE⟩], []) := by
  rw [packet_rx_callback_dispatch co s _ (by simp [PROTOCOL_HEADER_SIZE])
        (by simp [List.getD]) (by simpa [List.getD, PROTOCOL_HEADER_SIZE] using hlen)]
  unfold parse_packet
  simp only [List.getD_cons_zero, List.getD_cons_succ]
  unfold handle_command
  rw [if_neg (by simpa using h5), if_neg (by simpa using h4), if_neg (by simpa using h2),
      if_neg (by simpa using h3), if_neg (by simpa using h1), if_neg (by simpa using h6)]
  unfold protocol_handler_send_response
  rw [if_neg (by simp [hinit]), if_neg (by simp)]
  cases htx : co.txOk <;>
    simp [Nat.mod_eq_of_lt hcmd, Nat.mod_eq_of_lt hseq, RESP_INVALID_CMD, PROTOCOL_HEADER_SIZE]

/-- Witness for C8: unknown command `cmd_id = 0xEE`, `seq = 7`. -/
theorem c8_witness :
    packet_rx_callback ⟨0, 0, 0, true, true⟩ ⟨true, 0, false, 0, 0, false, false⟩
        (.PACKET_RECEIVED [1, 0xEE, 7, 0, 0, 0])
      = (⟨true, 0, false, 0, 0, false, false⟩,
         [⟨{ type := PACKET_TYPE_RESP, cmd_id := 0xEE, seq := 7,
             status := RESP_INVALID_CMD, length := 0, payload := [] },
           PROTOCOL_HEADER_SIZE⟩], []) :=
  c8_unknown_command_invalid_cmd_response ⟨0, 0, 0, true, true⟩
    ⟨true, 0, false, 0, 0, false, false⟩ 0xEE 7 0 0 0 []
    rfl (by decide) (by decide) (by decide) (by decide) (by decide) (by decide)
    (by decide) (by decide) (by decide)

-- ============================================================================
-- Claim C9 (corrected): sensor-sample notifications carry the
-- StartMeasurement command id, not NOTIFY_SENSOR_DATA
-- ============================================================================

/-- C9 counterexample: at a concrete initialized dispatcher state and a
concrete sample, the single Notification frame emitted by
`protocol_handler_send_sensor_sample` carries `cmd_id = CMD_START_MEASUREMENT`
(0x02), which is not the dedicated `NOTIFY_SENSOR_DATA` identifier (0x80)
the claim asserts. -/
theorem c9_counterexample :
    ((protocol_handler_send_sensor_sample ⟨true, 0, false, 0, 0, false, false⟩
        ⟨1, 0, 0⟩ true).2.2.map (fun f => f.packet.cmd_id) = [CMD_START_MEASUREMENT])
      ∧ CMD_START_MEASUREMENT ≠ NOTIFY_SENSOR_DATA := by decide

/-- C9 (amended): every live sensor-data Notification packet emitted via
`protocol_handler_send_sensor_sample` has packet type NOTIFY and carries
`CMD_START_MEASUREMENT` (0x02) — the StartMeasurement command identifier,
not the dedicated `NOTIFY_SENSOR_DATA` (0x80) — in its `cmd_id` field. -/
theorem c9_sensor_sample_uses_start_measurement_id (s : protocol_state_t)
    (sample : sensor_sample_t) (txOk : Bool)
    (hinit : s.initialized = true) :
    (protocol_handler_send_sensor_sample s sample txOk).2.2.map
        (fun f => (f.packet.type, f.packet.cmd_id))
      = [(PACKET_TYPE_NOTIFY, CMD_START_MEASUREMENT)] := by
  unfold protocol_handler_send_sensor_sample protocol_handler_send_notification
    serialize_sensor_sample le32
  rw [if_neg (by simp [hinit])]
  cases txOk <;> simp [CMD_START_MEASUREMENT, PROTOCOL_MAX_PAYLOAD_SIZE]

/-- Witness for the amended C9 at a concrete state and sample. -/
theorem c9_witness :
    (protocol_handler_send_sensor_sample ⟨true, 9, true, 1, 100, true, false⟩
        ⟨1, 5000, 2350⟩ false).2.2.map (fun f => (f.packet.type, f.packet.cmd_id))
      = [(PACKET_TYPE_NOTIFY, CMD_START_MEASUREMENT)] :=
  c9_sensor_sample_uses_start_measurement_id ⟨true, 9, true, 1, 100, true, false⟩
    ⟨1, 5000, 2350⟩ false rfl

-- ============================================================================
-- Claim C10
-- ============================================================================

/-- C10: the dispatcher's notification sequence counter advances by exactly
one (mod 256) per notification sent; two consecutive notifications carry
consecutive `seq` values mod 256 (the first carries the pre-call counter,
the second its successor); and sending a Response leaves the counter
untouched — responses echo the originating command's `seq` instead of
consuming the counter. -/
theorem c10_notification_seq_counter (s : protocol_state_t) (cmd1 cmd2 : Nat)
    (p1 p2 : List Nat) (t1 t2 : Bool)
    (rcmd rseq rstatus : Nat) (rp : List Nat) (rt : Bool)
    (hinit : s.initialized = true)
    (hp1 : p1.length ≤ PROTOCOL_MAX_PAYLOAD_SIZE)
    (hp2 : p2.length ≤ PROTOCOL_MAX_PAYLOAD_SIZE) :
    ((protocol_handler_send_notification s cmd1 p1 t1).2.1.seq_counter
        = (s.seq_counter + 1) % 256)
    ∧ ((protocol_handler_send_notification s cmd1 p1 t1).2.2.map (fun f => f.packet.seq)
        = [s.seq_counter])
    ∧ ((protocol_handler_send_notification
          (protocol_handler_send_notification s cmd1 p1 t1).2.1 cmd2 p2 t2).2.2.map
            (fun f => f.packet.seq)
        = [(s.seq_counter + 1) % 256])
    ∧ ((protocol_handler_send_response s rcmd rseq rstatus rp rt).2.1.seq_counter
        = s.seq_counter) := by
  refine ⟨?_, ?_, ?_, ?_⟩
  · unfold protocol_handler_send_notification
    rw [if_neg (by simp [hinit])]
    rcases p1 with _ | ⟨x, p1t⟩
    · cases t1 <;> simp
    · rw [if_neg (by rintro ⟨-, hgt⟩; exact absurd hgt (by simpa using Nat.not_lt.mpr hp1))]
      cases t1 <;> simp
  · unfold protocol_handler_send_notification
    rw [if_neg (by simp [hinit])]
    rcases p1 with _ | ⟨x, p1t⟩
    · cases t1 <;> simp
    · rw [if_neg (by rintro ⟨-, hgt⟩; exact absurd hgt (by simpa using Nat.not_lt.mpr hp1))]
      cases t1 <;> simp
  · have hst : (protocol_handler_send_notification s cmd1 p1 t1).2.1.initialized = true ∧
        (protocol_handler_send_notification s cmd1 p1 t1).2.1.seq_counter
          = (s.seq_counter + 1) % 256 := by
      unfold protocol_handler_send_notification
      rw [if_neg (by simp [hinit])]
      rcases p1 with _ | ⟨x, p1t⟩
      · cases t1 <;> simp [hinit]
      · rw [if_neg (by rintro ⟨-, hgt⟩; exact absurd hgt (by simpa using Nat.not_lt.mpr hp1))]
        cases t1 <;> simp [hinit]
    generalize hq : (protocol_handler_send_notification s cmd1 p1 t1).2.1 = q at hst
    obtain ⟨hq1, hq2⟩ := hst
    unfold protocol_handler_send_notification
    rw [if_neg (by simp [hq1])]
    rcases p2 with _ | ⟨y, p2t⟩
    · cases t2 <;> simp [hq2]
    · rw [if_neg (by rintro ⟨-, hgt⟩; exact absurd hgt (by simpa using Nat.not_lt.mpr hp2))]
      cases t2 <;> simp [hq2]
  · unfold protocol_handler_send_response
    rcases hi : s.initialized <;> rcases rp with _ | ⟨z, rpt⟩ <;> rcases rt <;>
      simp <;> split <;> simp

/-- Witness for C10 at concrete states, payloads and oracle outcomes. -/
theorem c10_witness :
    ((protocol_handler_send_notification ⟨true, 255, false, 0, 0, false, false⟩ 2 [9] true).2.1.seq_counter
        = (255 + 1) % 256)
    ∧ ((protocol_handler_send_notification ⟨true, 255, false, 0, 0, false, false⟩ 2 [9] true).2.2.map
          (fun f => f.packet.seq) = [255])
    ∧ ((protocol_handler_send_notification
          (protocol_handler_send_notification ⟨true, 255, false, 0, 0, false, false⟩ 2 [9] true).2.1
          2 [8] true).2.2.map (fun f => f.packet.seq) = [(255 + 1) % 256])
    ∧ ((protocol_handler_send_response ⟨true, 255, false, 0, 0, false, false⟩ 5 7 0 [] true).2.1.seq_counter
        = 255) :=
  c10_notification_seq_counter ⟨true, 255, false, 0, 0, false, false⟩ 2 2 [9] [8] true true
    5 7 0 [] true rfl (by decide) (by decide)

-- ============================================================================
-- Claim C2
-- ============================================================================

/-- C2: when the receive state machine consumes a byte in the End state
(without an inter-byte timeout), exactly one of three outcomes occurs: the
end marker with matching CRC emits exactly one packet-received event
carrying the accumulated bytes; the end marker with a CRC mismatch emits
exactly one CRC-error event; any other byte emits exactly one
framing-error event.  In all three outcomes the machine returns to Idle
with the accumulation index, expected length and received CRC reset to
zero. -/
theorem c2_end_state_trichotomy (tmo now : Nat) (s : stm32_uart_rx_t) (b : Nat)
    (hst : s.rx_state = .RX_STATE_END)
    (hnt : ¬ (0 < tmo ∧ tmo < diff32 now s.rx_last_byte_time)) :
    ((rx_process_byte tmo s b now).1.rx_state = .RX_STATE_IDLE
      ∧ (rx_process_byte tmo s b now).1.rx_index = 0
      ∧ (rx_process_byte tmo s b now).1.rx_expected_length = 0
      ∧ (rx_process_byte tmo s b now).1.rx_crc = 0)
    ∧ (b % 256 = STM32_PACKET_END_MARKER →
        stm32_uart_crc16 (s.rx_buffer.take s.rx_index) = s.rx_crc →
        (rx_process_byte tmo s b now).2
          = [.PACKET_RECEIVED (s.rx_buffer.take s.rx_index)])
    ∧ (b % 256 = STM32_PACKET_END_MARKER →
        stm32_uart_crc16 (s.rx_buffer.take s.rx_index) ≠ s.rx_crc →
        (rx_process_byte tmo s b now).2 = [.CRC_ERROR])
    ∧ (b % 256 ≠ STM32_PACKET_END_MARKER →
        (rx_process_byte tmo s b now).2 = [.RX_ERROR]) := by
  have hred : rx_process_byte tmo s b now
      = rx_step { s with rx_last_byte_time := now } (b % 256) := by
    apply rx_process_byte_no_timeout
    rintro ⟨ha, -, hb⟩
    exact hnt ⟨ha, hb⟩
  rw [hred]
  unfold rx_step
  simp only [hst]
  by_cases hend : b % 256 = STM32_PACKET_END_MARKER
  · rw [if_pos hend]
    by_cases hcrc : stm32_uart_crc16 (s.rx_buffer.take s.rx_index) = s.rx_crc
    · rw [if_pos hcrc]
      exact ⟨⟨rfl, rfl, rfl, rfl⟩, fun _ _ => rfl, fun _ hc => absurd hcrc hc,
        fun hb => absurd hend hb⟩
    · rw [if_neg hcrc]
      exact ⟨⟨rfl, rfl, rfl, rfl⟩, fun _ hc => absurd hc hcrc, fun _ _ => rfl,
        fun hb => absurd hend hb⟩
  · rw [if_neg hend]
    exact ⟨⟨rfl, rfl, rfl, rfl⟩, fun hb => absurd hb hend, fun hb => absurd hb hend,
      fun _ => rfl⟩

/-- Witness for C2: End state with an empty accumulated payload whose CRC
(0xFFFF) matches, consuming the end marker. -/
theorem c2_witness :
    (rx_process_byte 0 ⟨.RX_STATE_END, List.replicate 512 0, 0, 0, 65535, 0,
        ⟨0, 0, 0, 0, 0, 0⟩⟩ 0x55 0).1.rx_state = .RX_STATE_IDLE
    ∧ (rx_process_byte 0 ⟨.RX_STATE_END, List.replicate 512 0, 0, 0, 65535, 0,
        ⟨0, 0, 0, 0, 0, 0⟩⟩ 0x55 0).2 = [.PACKET_RECEIVED []] := by
  have h := c2_end_state_trichotomy 0 0
    ⟨.RX_STATE_END, List.replicate 512 0, 0, 0, 65535, 0, ⟨0, 0, 0, 0, 0, 0⟩⟩ 0x55
    rfl (by decide)
  exact ⟨h.1.1, h.2.1 (by decide) (by decide)⟩

-- ============================================================================
-- Claim C3
-- ============================================================================

/-- C3: if the 16-bit little-endian length assembled in the LengthHigh state
exceeds MaxFrameSize − FrameOverhead (506), the machine increments the
framing-error counter and returns straight to Idle (index and expected
length zeroed, no event emitted), never entering the Data state; and from
Idle every byte other than the start marker is discarded without any state
change beyond the timestamp, so no subsequent byte is stored as payload
until the next start marker. -/
theorem c3_oversized_length_resets_to_idle (tmo now : Nat) (s : stm32_uart_rx_t) (b : Nat)
    (hst : s.rx_state = .RX_STATE_LENGTH_HIGH)
    (hnt : ¬ (0 < tmo ∧ tmo < diff32 now s.rx_last_byte_time))
    (hlen : STM32_UART_MAX_PACKET_SIZE - PACKET_OVERHEAD
              < s.rx_expected_length ||| ((b % 256) <<< 8)) :
    ((rx_process_byte tmo s b now).1.rx_state = .RX_STATE_IDLE
      ∧ (rx_process_byte tmo s b now).1.rx_index = 0
      ∧ (rx_process_byte tmo s b now).1.rx_expected_length = 0
      ∧ (rx_process_byte tmo s b now).1.stats.framing_errors = s.stats.framing_errors + 1
      ∧ (rx_process_byte tmo s b now).2 = [])
    ∧ (∀ (s2 : stm32_uart_rx_t) (b2 now2 : Nat), s2.rx_state = .RX_STATE_IDLE →
        b2 % 256 ≠ STM32_PACKET_START_MARKER →
        rx_process_byte tmo s2 b2 now2 = ({ s2 with rx_last_byte_time := now2 }, [])) := by
  constructor
  · have hred : rx_process_byte tmo s b now
        = rx_step { s with rx_last_byte_time := now } (b % 256) := by
      apply rx_process_byte_no_timeout
      rintro ⟨ha, -, hb⟩
      exact hnt ⟨ha, hb⟩
    rw [hred]
    unfold rx_step
    simp only [hst]
    rw [if_pos hlen]
    exact ⟨rfl, rfl, rfl, rfl, rfl⟩
  · intro s2 b2 now2 hidle hnotstart
    rw [rx_process_byte_idle tmo s2 b2 now2 hidle]
    unfold rx_step
    simp only [hidle]
    rw [if_neg hnotstart]

/-- Witness for C3: LengthHigh with low byte 0xFF receiving high byte 0xFF
(assembled length 0xFFFF > 506). -/
theorem c3_witness :
    (rx_process_byte 0 ⟨.RX_STATE_LENGTH_HIGH, List.replicate 512 0, 0, 255, 0, 0,
        ⟨0, 0, 0, 0, 0, 0⟩⟩ 255 0).1.rx_state = .RX_STATE_IDLE
    ∧ (rx_process_byte 0 ⟨.RX_STATE_LENGTH_HIGH, List.replicate 512 0, 0, 255, 0, 0,
        ⟨0, 0, 0, 0, 0, 0⟩⟩ 255 0).1.stats.framing_errors = 1
    ∧ (rx_process_byte 0 ⟨.RX_STATE_LENGTH_HIGH, List.replicate 512 0, 0, 255, 0, 0,
        ⟨0, 0, 0, 0, 0, 0⟩⟩ 255 0).2 = [] := by
  have h := c3_oversized_length_resets_to_idle 0 0
    ⟨.RX_STATE_LENGTH_HIGH, List.replicate 512 0, 0, 255, 0, 0, ⟨0, 0, 0, 0, 0, 0⟩⟩ 255
    rfl (by decide) (by decide)
  exact ⟨h.1.1, h.1.2.2.2.1, h.1.2.2.2.2⟩

-- ============================================================================
-- Claim C4
-- ============================================================================

/-- Invariant maintained by the receive state machine: the validated
expected length never exceeds 506, the accumulation buffer keeps its
512-byte capacity, the write index is zero while the length is being
assembled, and in the Data state the write index stays strictly below the
expected length. -/
def rx_reach_inv (s : stm32_uart_rx_t) : Prop :=
  s.rx_expected_length ≤ STM32_UART_MAX_PACKET_SIZE - PACKET_OVERHEAD
  ∧ s.rx_buffer.length = STM32_UART_MAX_PACKET_SIZE
  ∧ ((s.rx_state = .RX_STATE_LENGTH_LOW ∨ s.rx_state = .RX_STATE_LENGTH_HIGH) → s.rx_index = 0)
  ∧ (s.rx_state = .RX_STATE_DATA → s.rx_index < s.rx_expected_length)

theorem rx_step_inv (s : stm32_uart_rx_t) (byte : Nat) (hb : byte < 256)
    (h : rx_reach_inv s) : rx_reach_inv (rx_step s byte).1 := by
  have h506 : STM32_UART_MAX_PACKET_SIZE - PACKET_OVERHEAD = 506 := rfl
  obtain ⟨h1, h2, h3, h4⟩ := h
  unfold rx_step
  cases hst : s.rx_state
  case RX_STATE_IDLE =>
    simp only [hst]
    split_ifs with hmarker
    · exact ⟨h1, h2, fun _ => rfl, fun hd => nomatch hd⟩
    · exact ⟨h1, h2, h3, h4⟩
  case RX_STATE_LENGTH_LOW =>
    simp only [hst]
    refine ⟨?_, h2, fun _ => h3 (Or.inl hst), fun hd => nomatch hd⟩
    show byte ≤ STM32_UART_MAX_PACKET_SIZE - PACKET_OVERHEAD
    rw [h506]
    omega
  case RX_STATE_LENGTH_HIGH =>
    simp only [hst]
    split_ifs with hbig hzero
    · exact ⟨by simp [rx_reset_state], h2, fun _ => rfl, fun hd => nomatch hd⟩
    · refine ⟨?_, h2, fun hor => ?_, fun hd => nomatch hd⟩
      · show s.rx_expected_length ||| (byte <<< 8) ≤ STM32_UART_MAX_PACKET_SIZE - PACKET_OVERHEAD
        rw [h506]
        omega
      · rcases hor with hx | hx <;> exact nomatch hx
    · refine ⟨?_, h2, fun hor => ?_, fun _ => ?_⟩
      · show s.rx_expected_length ||| (byte <<< 8) ≤ STM32_UART_MAX_PACKET_SIZE - PACKET_OVERHEAD
        rw [h506] at hbig ⊢
        omega
      · rcases hor with hx | hx <;> exact nomatch hx
      · show s.rx_index < s.rx_expected_length ||| (byte <<< 8)
        rw [h3 (Or.inr hst)]
        omega
  case RX_STATE_DATA =>
    simp only [hst]
    split_ifs with hdone
    · refine ⟨h1, by rw [List.length_set]; exact h2, fun hor => ?_, fun hd => nomatch hd⟩
      rcases hor with hx | hx <;> exact nomatch hx
    · refine ⟨h1, by rw [List.length_set]; exact h2, fun hor => ?_, fun _ => ?_⟩
      · rcases hor with hx | hx <;> exact nomatch hx
      · show s.rx_index + 1 < s.rx_expected_length
        omega
  case RX_STATE_CRC_LOW =>
    simp only [hst]
    refine ⟨h1, h2, fun hor => ?_, fun hd => nomatch hd⟩
    rcases hor with hx | hx <;> exact nomatch hx
  case RX_STATE_CRC_HIGH =>
    simp only [hst]
    refine ⟨h1, h2, fun hor => ?_, fun hd => nomatch hd⟩
    rcases hor with hx | hx <;> exact nomatch hx
  case RX_STATE_END =>
    simp only [hst]
    split_ifs with hmarker hcrc
    · exact ⟨by simp [rx_reset_state], h2, fun _ => rfl, fun hd => nomatch hd⟩
    · exact ⟨by simp [rx_reset_state], h2, fun _ => rfl, fun hd => nomatch hd⟩
    · exact ⟨by simp [rx_reset_state], h2, fun _ => rfl, fun hd => nomatch hd⟩

theorem rx_process_byte_inv (tmo : Nat) (s : stm32_uart_rx_t) (b now : Nat)
    (h : rx_reach_inv s) : rx_reach_inv (rx_process_byte tmo s b now).1 := by
  obtain ⟨h1, h2, h3, h4⟩ := h
  unfold rx_process_byte
  split_ifs with htmo
  · exact rx_step_inv _ _ (Nat.mod_lt _ (by norm_num))
      ⟨by simp [rx_reset_state], h2, fun _ => rfl, fun hd => nomatch hd⟩
  · exact rx_step_inv _ _ (Nat.mod_lt _ (by norm_num)) ⟨h1, h2, h3, h4⟩

theorem rxRun_inv (tmo : Nat) (s : stm32_uart_rx_t) (l : List (Nat × Nat))
    (h : rx_reach_inv s) : rx_reach_inv (rxRun tmo s l).1 := by
  induction l generalizing s with
  | nil => exact h
  | cons p rest ih =>
      obtain ⟨b, t⟩ := p
      rw [rxRun_cons]
      exact ih _ (rx_process_byte_inv tmo s b t h)

/-- C4: after any sequence of input bytes processed from the reset state,
whenever the machine is in the Data state — i.e. whenever the next store
into the receive accumulation buffer would happen, at the current
`rx_index` — the write index is strictly below the validated expected
length, the expected length is at most 506, the index is strictly below
the 512-byte buffer capacity, and the buffer retains its full capacity; so
every buffer store is in bounds and the out-of-bounds case is
unreachable. -/
theorem c4_buffer_store_in_bounds (tmo : Nat) (l : List (Nat × Nat))
    (hd : (rxRun tmo stm32_uart_rx_initial l).1.rx_state = .RX_STATE_DATA) :
    (rxRun tmo stm32_uart_rx_initial l).1.rx_index
        < (rxRun tmo stm32_uart_rx_initial l).1.rx_expected_length
    ∧ (rxRun tmo stm32_uart_rx_initial l).1.rx_expected_length
        ≤ STM32_UART_MAX_PACKET_SIZE - PACKET_OVERHEAD
    ∧ (rxRun tmo stm32_uart_rx_initial l).1.rx_index < STM32_UART_MAX_PACKET_SIZE
    ∧ (rxRun tmo stm32_uart_rx_initial l).1.rx_buffer.length = STM32_UART_MAX_PACKET_SIZE := by
  have hin : rx_reach_inv stm32_uart_rx_initial := by
    refine ⟨Nat.zero_le _, by simp [stm32_uart_rx_initial], fun _ => rfl, fun hx => nomatch hx⟩
  obtain ⟨h1, h2, h3, h4⟩ := rxRun_inv tmo _ l hin
  have hx := h4 hd
  have h506 : STM32_UART_MAX_PACKET_SIZE - PACKET_OVERHEAD = 506 := rfl
  have h512 : STM32_UART_MAX_PACKET_SIZE = 512 := rfl
  exact ⟨hx, h1, by omega, h2⟩

/-- Witness for C4: a start marker followed by the length bytes 0x01 0x00
leaves the machine in the Data state with its index in bounds. -/
theorem c4_witness :
    (rxRun 0 stm32_uart_rx_initial [(0xAA, 0), (1, 0), (0, 0)]).1.rx_state = .RX_STATE_DATA
    ∧ (rxRun 0 stm32_uart_rx_initial [(0xAA, 0), (1, 0), (0, 0)]).1.rx_index
        < STM32_UART_MAX_PACKET_SIZE :=
  ⟨by decide, (c4_buffer_store_in_bounds 0 [(0xAA, 0), (1, 0), (0, 0)] (by decide)).2.2.1⟩

-- ============================================================================
-- Claim C5
-- ============================================================================

set_option maxRecDepth 100000 in
/-- C5: the CRC field of every frame produced by either transmit path equals
CRC16-CCITT of the payload bytes only.  Conjuncts: (1) every entry of the
256-entry lookup table agrees with the polynomial-0x1021 MSB-first
reference generator; (2) the initial value is 0xFFFF; (3) the CRC folds
one table-driven MSB-first update `crc = (crc << 8) ^ table[(crc >> 8) ^ byte]`
per payload byte; (4) in the synchronous frame the two bytes following the
payload are the little-endian CRC16 of the payload alone — not of the
length or marker bytes — and reassemble to that CRC; (5) a successful
asynchronous send writes the identical frame into the shared transmit
buffer; (6) the receive path, on the end marker, compares the same
`stm32_uart_crc16` of the accumulated payload against the received CRC to
choose between the packet-received and CRC-error events. -/
theorem c5_crc_over_payload_only :
    (∀ i, i < 256 → crc16_table.getD i 0 = crc16_table_ref i)
    ∧ (stm32_uart_crc16 [] = 0xFFFF)
    ∧ (∀ (data : List Nat) (b : Nat),
        stm32_uart_crc16 (data ++ [b]) = stm32_uart_crc16_step (stm32_uart_crc16 data) b)
    ∧ (∀ data : List Nat,
        (stm32_uart_send_packet_frame data).drop (3 + data.length)
            = [stm32_uart_crc16 data &&& 0xFF, (stm32_uart_crc16 data >>> 8) &&& 0xFF,
               STM32_PACKET_END_MARKER]
          ∧ ((stm32_uart_crc16 data &&& 0xFF)
                ||| (((stm32_uart_crc16 data >>> 8) &&& 0xFF) <<< 8))
              = stm32_uart_crc16 data)
    ∧ (∀ (s : stm32_uart_tx_t) (data : List Nat),
        s.initialized = true → data.length ≤ STM32_UART_MAX_PACKET_SIZE - PACKET_OVERHEAD →
        ((stm32_uart_send_packet_async s data true true true).2.tx_buffer).take
            (data.length + PACKET_OVERHEAD) = stm32_uart_send_packet_frame data)
    ∧ (∀ (tmo now : Nat) (s : stm32_uart_rx_t),
        s.rx_state = .RX_STATE_END →
        ¬ (0 < tmo ∧ tmo < diff32 now s.rx_last_byte_time) →
        (rx_process_byte tmo s STM32_PACKET_END_MARKER now).2
          = (if stm32_uart_crc16 (s.rx_buffer.take s.rx_index) = s.rx_crc
             then [.PACKET_RECEIVED (s.rx_buffer.take s.rx_index)]
             else [.CRC_ERROR])) := by
  refine ⟨by decide, rfl, ?_, ?_, ?_, ?_⟩
  · intro data b
    unfold stm32_uart_crc16
    rw [List.foldl_append]
    rfl
  · intro data
    constructor
    · show List.drop (3 + data.length)
          ([STM32_PACKET_START_MARKER, data.length &&& 255, (data.length >>> 8) &&& 255]
            ++ data
            ++ [stm32_uart_crc16 data &&& 255, (stm32_uart_crc16 data >>> 8) &&& 255,
                STM32_PACKET_END_MARKER])
          = [stm32_uart_crc16 data &&& 255, (stm32_uart_crc16 data >>> 8) &&& 255,
             STM32_PACKET_END_MARKER]
      exact List.drop_left' (by simp; omega)
    · exact le16_reassemble _ (stm32_uart_crc16_lt data)
  · intro s data hinit hlen
    unfold stm32_uart_send_packet_async
    rw [if_neg (by simp [hinit]),
        if_neg (by revert hlen; unfold STM32_UART_MAX_PACKET_SIZE PACKET_OVERHEAD; omega),
        if_neg (by simp), if_neg (by rintro ⟨-, hfalse⟩; exact absurd hfalse (by simp)),
        if_neg (by simp)]
    show List.take (data.length + PACKET_OVERHEAD)
        (([STM32_PACKET_START_MARKER, data.length &&& 255, (data.length >>> 8) &&& 255]
            ++ data
            ++ [stm32_uart_crc16 data &&& 255, (stm32_uart_crc16 data >>> 8) &&& 255,
                STM32_PACKET_END_MARKER])
          ++ s.tx_buffer.drop
            ([STM32_PACKET_START_MARKER, data.length &&& 255, (data.length >>> 8) &&& 255]
              ++ data
              ++ [stm32_uart_crc16 data &&& 255, (stm32_uart_crc16 data >>> 8) &&& 255,
                  STM32_PACKET_END_MARKER]).length)
        = stm32_uart_send_packet_frame data
    rw [List.take_left' (by simp [PACKET_OVERHEAD])]
    rfl
  · intro tmo now s hst hnt
    have hred : rx_process_byte tmo s STM32_PACKET_END_MARKER now
        = rx_step { s with rx_last_byte_time := now } (STM32_PACKET_END_MARKER % 256) := by
      apply rx_process_byte_no_timeout
      rintro ⟨ha, -, hb⟩
      exact hnt ⟨ha, hb⟩
    rw [hred]
    unfold rx_step
    simp only [hst]
    rw [if_pos (by decide)]
    split_ifs <;> rfl

theorem c5_witness :
    crc16_table.getD 1 0 = crc16_table_ref 1
    ∧ ((stm32_uart_send_packet_frame [7, 42]).drop 5
        = [stm32_uart_crc16 [7, 42] &&& 0xFF, (stm32_uart_crc16 [7, 42] >>> 8) &&& 0xFF,
           STM32_PACKET_END_MARKER])
    ∧ (((stm32_uart_send_packet_async ⟨true, List.replicate 512 0, 0, false⟩
          [7, 42] true true true).2.tx_buffer).take (2 + PACKET_OVERHEAD)
        = stm32_uart_send_packet_frame [7, 42])
    ∧ ((rx_process_byte 0 ⟨.RX_STATE_END, List.replicate 512 0, 0, 0, 65535, 0,
          ⟨0, 0, 0, 0, 0, 0⟩⟩ STM32_PACKET_END_MARKER 0).2 = [.PACKET_RECEIVED []]) := by
  refine ⟨c5_crc_over_payload_only.1 1 (by decide), (c5_crc_over_payload_only.2.2.2.1 [7, 42]).1,
    c5_crc_over_payload_only.2.2.2.2.1 ⟨true, List.replicate 512 0, 0, false⟩ [7, 42] rfl (by decide), ?_⟩
  have h := c5_crc_over_payload_only.2.2.2.2.2 0 0
    ⟨.RX_STATE_END, List.replicate 512 0, 0, 0, 65535, 0, ⟨0, 0, 0, 0, 0, 0⟩⟩ rfl (by decide)
  rw [if_pos (by decide)] at h
  exact h

-- ============================================================================
-- Per-state step equations for the receive machine
-- ============================================================================

theorem rx_step_idle_start (s : stm32_uart_rx_t) (byte : Nat)
    (h : s.rx_state = .RX_STATE_IDLE) (hm : byte = STM32_PACKET_START_MARKER) :
    rx_step s byte = ({ s with rx_state := .RX_STATE_LENGTH_LOW, rx_index := 0 }, []) := by
  unfold rx_step
  simp only [h]
  rw [if_pos hm]

theorem rx_step_length_low (s : stm32_uart_rx_t) (byte : Nat)
    (h : s.rx_state = .RX_STATE_LENGTH_LOW) :
    rx_step s byte
      = ({ s with rx_expected_length := byte, rx_state := .RX_STATE_LENGTH_HIGH }, []) := by
  unfold rx_step
  simp only [h]

theorem rx_step_length_high_to_data (s : stm32_uart_rx_t) (byte : Nat)
    (h : s.rx_state = .RX_STATE_LENGTH_HIGH)
    (hsz : ¬ STM32_UART_MAX_PACKET_SIZE - PACKET_OVERHEAD < s.rx_expected_length ||| (byte <<< 8))
    (hnz : s.rx_expected_length ||| (byte <<< 8) ≠ 0) :
    rx_step s byte
      = ({ s with rx_expected_length := s.rx_expected_length ||| (byte <<< 8), rx_state := .RX_STATE_DATA }, []) := by
  unfold rx_step
  simp only [h]
  rw [if_neg hsz, if_neg hnz]

theorem rx_step_length_high_to_crc (s : stm32_uart_rx_t) (byte : Nat)
    (h : s.rx_state = .RX_STATE_LENGTH_HIGH)
    (hz : s.rx_expected_length ||| (byte <<< 8) = 0) :
    rx_step s byte
      = ({ s with rx_expected_length := s.rx_expected_length ||| (byte <<< 8), rx_state := .RX_STATE_CRC_LOW }, []) := by
  unfold rx_step
  simp only [h]
  rw [if_neg (by rw [hz]; exact Nat.not_lt_zero _), if_pos hz]

theorem rx_step_data_more (s : stm32_uart_rx_t) (byte : Nat)
    (h : s.rx_state = .RX_STATE_DATA)
    (hmore : s.rx_index + 1 < s.rx_expected_length) :
    rx_step s byte
      = ({ s with rx_buffer := s.rx_buffer.set s.rx_index byte, rx_index := s.rx_index + 1 }, []) := by
  unfold rx_step
  simp only [h]
  rw [if_neg (by show ¬ s.rx_expected_length ≤ s.rx_index + 1; omega)]

theorem rx_step_data_last (s : stm32_uart_rx_t) (byte : Nat)
    (h : s.rx_state = .RX_STATE_DATA)
    (hlast : s.rx_expected_length ≤ s.rx_index + 1) :
    rx_step s byte
      = ({ s with rx_buffer := s.rx_buffer.set s.rx_index byte, rx_index := s.rx_index + 1, rx_state := .RX_STATE_CRC_LOW }, []) := by
  unfold rx_step
  simp only [h]
  rw [if_pos (by show s.rx_expected_length ≤ s.rx_index + 1; omega)]

theorem rx_step_crc_low (s : stm32_uart_rx_t) (byte : Nat)
    (h : s.rx_state = .RX_STATE_CRC_LOW) :
    rx_step s byte = ({ s with rx_crc := byte, rx_state := .RX_STATE_CRC_HIGH }, []) := by
  unfold rx_step
  simp only [h]

theorem rx_step_crc_high (s : stm32_uart_rx_t) (byte : Nat)
    (h : s.rx_state = .RX_STATE_CRC_HIGH) :
    rx_step s byte
      = ({ s with rx_crc := s.rx_crc ||| (byte <<< 8), rx_state := .RX_STATE_END }, []) := by
  unfold rx_step
  simp only [h]

theorem rx_step_end_good (s : stm32_uart_rx_t) (byte : Nat)
    (h : s.rx_state = .RX_STATE_END) (hm : byte = STM32_PACKET_END_MARKER)
    (hcrc : stm32_uart_crc16 (s.rx_buffer.take s.rx_index) = s.rx_crc) :
    rx_step s byte
      = (rx_reset_state { s with
           stats := { s.stats with packets_received := s.stats.packets_received + 1 } },
         [.PACKET_RECEIVED (s.rx_buffer.take s.rx_index)]) := by
  unfold rx_step
  simp only [h]
  rw [if_pos hm, if_pos hcrc]

theorem rxRun_data_phase (tmo now : Nat) (p : List Nat) :
    ∀ (s : stm32_uart_rx_t),
    s.rx_state = .RX_STATE_DATA →
    s.rx_last_byte_time = now →
    s.rx_index + p.length = s.rx_expected_length →
    s.rx_index < s.rx_expected_length →
    s.rx_expected_length ≤ STM32_UART_MAX_PACKET_SIZE - PACKET_OVERHEAD →
    s.rx_buffer.length = STM32_UART_MAX_PACKET_SIZE →
    (∀ b ∈ p, b < 256) →
    ∃ buf : List Nat,
      buf.length = STM32_UART_MAX_PACKET_SIZE ∧
      buf.take s.rx_expected_length = s.rx_buffer.take s.rx_index ++ p ∧
      rxRun tmo s (p.map (fun b => (b, now)))
        = ({ s with rx_state := .RX_STATE_CRC_LOW, rx_index := s.rx_expected_length, rx_buffer := buf, rx_last_byte_time := now }, []) := by
  induction p with
  | nil =>
      intro s _ _ hsum hlt _ _ _
      simp only [List.length_nil] at hsum
      omega
  | cons b pt ih =>
      intro s hst hlast hsum hlt hexp hbuf hbytes
      have hb : b < 256 := hbytes b (by simp)
      have hidx : s.rx_index < s.rx_buffer.length := by
        have h506 : STM32_UART_MAX_PACKET_SIZE - PACKET_OVERHEAD = 506 := rfl
        have h512 : STM32_UART_MAX_PACKET_SIZE = 512 := rfl
        omega
      rw [List.map_cons, rxRun_cons, rx_process_byte_same_time tmo s b now hlast]
      simp only [List.length_cons] at hsum
      by_cases hdone : s.rx_expected_length ≤ s.rx_index + 1
      · have hpt : pt = [] := by
          cases pt with
          | nil => rfl
          | cons x xs => simp only [List.length_cons] at hsum; omega
        subst hpt
        rw [rx_step_data_last { s with rx_last_byte_time := now } (b % 256) hst hdone, Nat.mod_eq_of_lt hb, List.map_nil, rxRun_nil]
        have hexpeq : s.rx_expected_length = s.rx_index + 1 := by
          simp only [List.length_nil] at hsum
          omega
        refine ⟨s.rx_buffer.set s.rx_index b, ?_, ?_, ?_⟩
        · rw [List.length_set]; exact hbuf
        · rw [hexpeq, take_succ_set _ _ _ hidx]
        · rw [hexpeq]
          rfl
      · rw [rx_step_data_more { s with rx_last_byte_time := now } (b % 256) hst
              (by show s.rx_index + 1 < s.rx_expected_length; omega),
            Nat.mod_eq_of_lt hb]
        obtain ⟨buf, hblen, htake, hrun⟩ :=
          ih { s with rx_buffer := s.rx_buffer.set s.rx_index b, rx_index := s.rx_index + 1, rx_last_byte_time := now }
            hst rfl (by show s.rx_index + 1 + pt.length = s.rx_expected_length; omega)
            (by show s.rx_index + 1 < s.rx_expected_length; omega) hexp
            (by show (s.rx_buffer.set s.rx_index b).length = STM32_UART_MAX_PACKET_SIZE
                rw [List.length_set]
                exact hbuf)
            (fun x hx => hbytes x (by simp [hx]))
        rw [hrun]
        refine ⟨buf, hblen, ?_, rfl⟩
        rw [htake]
        show _ = s.rx_buffer.take s.rx_index ++ (b :: pt)
        rw [take_succ_set _ _ _ hidx]
        simp

theorem rxRun_cons_eq (tmo : Nat) (s s' : stm32_uart_rx_t) (b t : Nat)
    (rest : List (Nat × Nat)) (evs : List stm32_uart_event)
    (h : rx_process_byte tmo s b t = (s', evs)) :
    rxRun tmo s ((b, t) :: rest)
      = ((rxRun tmo s' rest).1, evs ++ (rxRun tmo s' rest).2) := by
  rw [rxRun_cons, h]

theorem rxRun_crc_end_phase (tmo now : Nat) (s : stm32_uart_rx_t) (c : Nat)
    (hst : s.rx_state = .RX_STATE_CRC_LOW)
    (hlast : s.rx_last_byte_time = now)
    (hc : c < 65536)
    (hcrc : stm32_uart_crc16 (s.rx_buffer.take s.rx_index) = c) :
    (rxRun tmo s
        [(c &&& 255, now), ((c >>> 8) &&& 255, now), (STM32_PACKET_END_MARKER, now)]).2
      = [.PACKET_RECEIVED (s.rx_buffer.take s.rx_index)] := by
  have e1 : rx_process_byte tmo s (c &&& 255) now
      = ({ s with rx_last_byte_time := now, rx_crc := c &&& 255, rx_state := .RX_STATE_CRC_HIGH }, []) := by
    rw [rx_process_byte_same_time tmo s (c &&& 255) now hlast,
        rx_step_crc_low { s with rx_last_byte_time := now } ((c &&& 255) % 256) hst,
        Nat.mod_eq_of_lt (and_255_lt c)]
  have e2 : rx_process_byte tmo
      { s with rx_last_byte_time := now, rx_crc := c &&& 255, rx_state := .RX_STATE_CRC_HIGH }
      ((c >>> 8) &&& 255) now
      = ({ s with rx_last_byte_time := now, rx_crc := c, rx_state := .RX_STATE_END }, []) := by
    rw [rx_process_byte_same_time _ _ _ _ rfl,
        rx_step_crc_high _ _ rfl, Nat.mod_eq_of_lt (and_255_lt _)]
    rw [show (c &&& 255) ||| (((c >>> 8) &&& 255) <<< 8) = c from le16_reassemble c hc]
  have e3 : rx_process_byte tmo
      { s with rx_last_byte_time := now, rx_crc := c, rx_state := .RX_STATE_END }
      STM32_PACKET_END_MARKER now
      = (rx_reset_state { s with rx_last_byte_time := now, rx_crc := c, rx_state := .RX_STATE_END, stats := { s.stats with packets_received := s.stats.packets_received + 1 } },
         [.PACKET_RECEIVED (s.rx_buffer.take s.rx_index)]) := by
    rw [rx_process_byte_same_time _ _ _ _ rfl,
        rx_step_end_good { s with rx_last_byte_time := now, rx_crc := c, rx_state := .RX_STATE_END } (STM32_PACKET_END_MARKER % 256) rfl (by decide) hcrc]
  rw [rxRun_cons_eq _ _ _ _ _ _ _ e1, rxRun_cons_eq _ _ _ _ _ _ _ e2,
      rxRun_cons_eq _ _ _ _ _ _ _ e3, rxRun_nil]
  rfl

-- ============================================================================
-- Claim C1
-- ============================================================================

/-- C1: for every payload of length 0..506 (the empty payload included),
feeding the frame built by the synchronous encode path — start marker 0xAA,
16-bit little-endian length, payload, 16-bit little-endian CRC16 over the
payload, end marker 0x55 — byte by byte into the receive state machine
starting from the reset state yields exactly one packet-received event
whose data equals the payload, and no error events, for every timeout
configuration (the bytes arriving back to back at one timestamp). -/
theorem c1_roundtrip (p : List Nat) (hb : ∀ b ∈ p, b < 256)
    (hlen : p.length ≤ STM32_UART_MAX_PACKET_SIZE - PACKET_OVERHEAD) (tmo now : Nat) :
    (rxRun tmo stm32_uart_rx_initial
        ((stm32_uart_send_packet_frame p).map (fun b => (b, now)))).2
      = [.PACKET_RECEIVED p] := by
  have h506 : STM32_UART_MAX_PACKET_SIZE - PACKET_OVERHEAD = 506 := rfl
  have hlen2 : p.length < 65536 := by omega
  have hframe : (stm32_uart_send_packet_frame p).map (fun b => (b, now))
      = (STM32_PACKET_START_MARKER, now) :: (p.length &&& 255, now)
        :: ((p.length >>> 8) &&& 255, now)
        :: (p.map (fun b => (b, now))
            ++ [(stm32_uart_crc16 p &&& 255, now), ((stm32_uart_crc16 p >>> 8) &&& 255, now),
                (STM32_PACKET_END_MARKER, now)]) := by
    simp [stm32_uart_send_packet_frame]
  rw [hframe]
  have e1 : rx_process_byte tmo stm32_uart_rx_initial STM32_PACKET_START_MARKER now
      = (⟨.RX_STATE_LENGTH_LOW, List.replicate STM32_UART_MAX_PACKET_SIZE 0, 0, 0, 0, now, ⟨0, 0, 0, 0, 0, 0⟩⟩, []) := by
    rw [rx_process_byte_idle _ _ _ _ rfl,
        rx_step_idle_start { stm32_uart_rx_initial with rx_last_byte_time := now }
          (STM32_PACKET_START_MARKER % 256) rfl (by decide)]
    rfl
  have e2 : rx_process_byte tmo
      ⟨.RX_STATE_LENGTH_LOW, List.replicate STM32_UART_MAX_PACKET_SIZE 0, 0, 0, 0, now, ⟨0, 0, 0, 0, 0, 0⟩⟩
      (p.length &&& 255) now
      = (⟨.RX_STATE_LENGTH_HIGH, List.replicate STM32_UART_MAX_PACKET_SIZE 0, 0, p.length &&& 255, 0, now, ⟨0, 0, 0, 0, 0, 0⟩⟩, []) := by
    rw [rx_process_byte_same_time _ _ _ _ rfl,
        rx_step_length_low
          ⟨.RX_STATE_LENGTH_LOW, List.replicate STM32_UART_MAX_PACKET_SIZE 0, 0, 0, 0, now, ⟨0, 0, 0, 0, 0, 0⟩⟩
          ((p.length &&& 255) % 256) rfl,
        Nat.mod_eq_of_lt (and_255_lt _)]
  have hle : (p.length &&& 255) ||| (((p.length >>> 8) &&& 255) <<< 8) = p.length :=
    le16_reassemble _ hlen2
  rcases eq_or_ne p [] with hpnil | hpne
  · subst hpnil
    have e3 : rx_process_byte tmo
        ⟨.RX_STATE_LENGTH_HIGH, List.replicate STM32_UART_MAX_PACKET_SIZE 0, 0, List.length ([] : List Nat) &&& 255, 0, now, ⟨0, 0, 0, 0, 0, 0⟩⟩
        ((List.length ([] : List Nat) >>> 8) &&& 255) now
        = (⟨.RX_STATE_CRC_LOW, List.replicate STM32_UART_MAX_PACKET_SIZE 0, 0, 0, 0, now, ⟨0, 0, 0, 0, 0, 0⟩⟩, []) := by
      rw [rx_process_byte_same_time _ _ _ _ rfl]
      rw [show ((List.length ([] : List Nat) >>> 8) &&& 255) % 256 = 0 by decide]
      rw [rx_step_length_high_to_crc
            ⟨.RX_STATE_LENGTH_HIGH, List.replicate STM32_UART_MAX_PACKET_SIZE 0, 0, List.length ([] : List Nat) &&& 255, 0, now, ⟨0, 0, 0, 0, 0, 0⟩⟩
            0 rfl (by show List.length ([] : List Nat) &&& 255 ||| 0 <<< 8 = 0; decide)]
      show (({ rx_state := .RX_STATE_CRC_LOW, rx_buffer := List.replicate STM32_UART_MAX_PACKET_SIZE 0, rx_index := 0, rx_expected_length := List.length ([] : List Nat) &&& 255 ||| 0 <<< 8, rx_crc := 0, rx_last_byte_time := now, stats := ⟨0, 0, 0, 0, 0, 0⟩ } : stm32_uart_rx_t), ([] : List stm32_uart_event)) = _
      rw [show List.length ([] : List Nat) &&& 255 ||| 0 <<< 8 = 0 from by decide]
    rw [rxRun_cons_eq _ _ _ _ _ _ _ e1, rxRun_cons_eq _ _ _ _ _ _ _ e2,
        rxRun_cons_eq _ _ _ _ _ _ _ e3]
    rw [List.map_nil, List.nil_append,
        rxRun_crc_end_phase tmo now
          ⟨.RX_STATE_CRC_LOW, List.replicate STM32_UART_MAX_PACKET_SIZE 0, 0, 0, 0, now, ⟨0, 0, 0, 0, 0, 0⟩⟩
          (stm32_uart_crc16 []) rfl rfl (stm32_uart_crc16_lt _) rfl]
    rfl
  · have hplen : 0 < p.length := List.length_pos.mpr hpne
    have e3 : rx_process_byte tmo
        ⟨.RX_STATE_LENGTH_HIGH, List.replicate STM32_UART_MAX_PACKET_SIZE 0, 0, p.length &&& 255, 0, now, ⟨0, 0, 0, 0, 0, 0⟩⟩
        ((p.length >>> 8) &&& 255) now
        = (⟨.RX_STATE_DATA, List.replicate STM32_UART_MAX_PACKET_SIZE 0, 0, p.length, 0, now, ⟨0, 0, 0, 0, 0, 0⟩⟩, []) := by
      rw [rx_process_byte_same_time _ _ _ _ rfl,
          Nat.mod_eq_of_lt (and_255_lt _),
          rx_step_length_high_to_data
            ⟨.RX_STATE_LENGTH_HIGH, List.replicate STM32_UART_MAX_PACKET_SIZE 0, 0, p.length &&& 255, 0, now, ⟨0, 0, 0, 0, 0, 0⟩⟩
            ((p.length >>> 8) &&& 255) rfl
            (by show ¬ _ < (p.length &&& 255) ||| (((p.length >>> 8) &&& 255) <<< 8)
                rw [hle, h506]
                omega)
            (by show (p.length &&& 255) ||| (((p.length >>> 8) &&& 255) <<< 8) ≠ 0
                rw [hle]
                omega)]
      rw [show ((p.length &&& 255) ||| (((p.length >>> 8) &&& 255) <<< 8)) = p.length from hle]
    obtain ⟨buf, hblen, htake, hrun⟩ :=
      rxRun_data_phase tmo now p
        ⟨.RX_STATE_DATA, List.replicate STM32_UART_MAX_PACKET_SIZE 0, 0, p.length, 0, now, ⟨0, 0, 0, 0, 0, 0⟩⟩
        rfl rfl (by show 0 + p.length = p.length; omega) hplen hlen (by simp) hb
    have htake2 : buf.take p.length = p := by
      simpa using htake
    rw [rxRun_cons_eq _ _ _ _ _ _ _ e1, rxRun_cons_eq _ _ _ _ _ _ _ e2,
        rxRun_cons_eq _ _ _ _ _ _ _ e3, rxRun_append, hrun]
    have hend := rxRun_crc_end_phase tmo now
        ⟨.RX_STATE_CRC_LOW, buf, p.length, p.length, 0, now, ⟨0, 0, 0, 0, 0, 0⟩⟩
        (stm32_uart_crc16 p) rfl rfl (stm32_uart_crc16_lt _)
        (by show stm32_uart_crc16 (buf.take p.length) = _
            rw [htake2])
    rw [show ({ rx_state := rx_state_t.RX_STATE_CRC_LOW, rx_buffer := buf, rx_index := p.length, rx_expected_length := p.length, rx_crc := 0, rx_last_byte_time := now, stats := ⟨0, 0, 0, 0, 0, 0⟩ } : stm32_uart_rx_t) = ⟨.RX_STATE_CRC_LOW, buf, p.length, p.length, 0, now, ⟨0, 0, 0, 0, 0, 0⟩⟩ from rfl] at hend
    rw [hend]
    show [] ++ ([] ++ ([] ++ ([] ++ [stm32_uart_event.PACKET_RECEIVED (buf.take p.length)]))) = _
    rw [htake2]
    rfl


/-- Witness for C1 at the concrete payload [7, 42]. -/
theorem c1_witness :
    (rxRun 5 stm32_uart_rx_initial
        ((stm32_uart_send_packet_frame [7, 42]).map (fun b => (b, 3)))).2
      = [.PACKET_RECEIVED [7, 42]] :=
  c1_roundtrip [7, 42] (by decide) (by decide) 5 3
